import Mathlib

/-!
Verification of the k-level cascade agent core.

This file gives a shallow embedding, over exact rationals, of the two agent
implementations found in the repository:

* `AgentV2` (file AgentV2.py) — the implementation driven by simv2.py;
* `AgentClass.Agent` (file AgentClass.py) — the older variant.

Python floats are modelled as rationals; a `raise` is modelled by the
`Except`/`Option` error value and Python `None` by `Option.none`.
-/

/-- Embeds the class AgentV2 of AgentV2.py: the fields set by its
constructor (`observations` starts empty, `decision` starts at Python
`None`). -/
structure AgentV2 where
  private_signal : Bool
  signal_strength : ℚ
  k_level : ℤ
  prior : ℚ × ℚ
  observations : List Bool
  decision : Option Bool

namespace AgentV2

/-- Embeds AgentV2.__init__: validates `signal_strength ∈ [0,1]` and
`k_level ∈ \x7b0,1,2\x7d`, raising ValueError (the `.error` case) otherwise;
on success the agent starts with empty observations and decision `None`. -/
def init (private_signal : Bool) (signal_strength : ℚ) (k_level : ℤ)
    (prior : ℚ × ℚ) : Except String AgentV2 :=
  if ¬(0 ≤ signal_strength ∧ signal_strength ≤ 1) then
    Except.error "signal_strength must be between 0 and 1"
  else if ¬(k_level = 0 ∨ k_level = 1 ∨ k_level = 2) then
    Except.error "k_level must be 0, 1, or 2"
  else
    Except.ok ⟨private_signal, signal_strength, k_level, prior, [], none⟩

/-- True exactly when `init` succeeds (does not raise). -/
def initOk (private_signal : Bool) (signal_strength : ℚ) (k_level : ℤ)
    (prior : ℚ × ℚ) : Bool :=
  match init private_signal signal_strength k_level prior with
  | Except.ok _ => true
  | Except.error _ => false

/-- Embeds AgentV2.observe: `self.observations = observations.copy()`
(wholesale replacement). -/
def observe (a : AgentV2) (observations : List Bool) : AgentV2 :=
  { a with observations := observations }

/-- Embeds AgentV2._update_belief: one Bayes step; `q` is 0.6 for
observations and `signal_strength` for the private signal; on a zero
denominator the current probability is returned unchanged. -/
def update_belief (a : AgentV2) (current_prob : ℚ) (signal : Bool)
    (is_observation : Bool) : ℚ :=
  let q : ℚ := if is_observation then 6/10 else a.signal_strength
  let likelihood_true : ℚ := if signal then q else 1 - q
  let likelihood_false : ℚ := if signal then 1 - q else q
  let numerator := likelihood_true * current_prob
  let denominator := numerator + likelihood_false * (1 - current_prob)
  if denominator = 0 then current_prob else numerator / denominator

/-- The evidence-marginal denominator computed inside
AgentV2._update_belief (named here so theorems can refer to it). -/
def update_den (a : AgentV2) (current_prob : ℚ) (signal : Bool)
    (is_observation : Bool) : ℚ :=
  let q : ℚ := if is_observation then 6/10 else a.signal_strength
  let likelihood_true : ℚ := if signal then q else 1 - q
  let likelihood_false : ℚ := if signal then 1 - q else q
  likelihood_true * current_prob + likelihood_false * (1 - current_prob)

/-- Embeds AgentV2._bayesian_update: fold `_update_belief` over the
observations starting from `prior[0]`, then one step for the private
signal. -/
def bayesian_update (a : AgentV2) (observations : List Bool)
    (private_signal : Bool) : ℚ :=
  let prob_true :=
    observations.foldl (fun p observation => a.update_belief p observation true)
      a.prior.1
  a.update_belief prob_true private_signal false

/-- Embeds AgentV2.aux_lvl0: the private signal if `signal_strength ≥ 0.5`,
otherwise its negation. -/
def aux_lvl0 (a : AgentV2) : Bool :=
  if a.signal_strength ≥ 1/2 then a.private_signal else !a.private_signal

/-- Embeds AgentV2.aux_lvl1: posterior from `_bayesian_update` compared
against 0.5. -/
def aux_lvl1 (a : AgentV2) : Bool :=
  decide (a.bayesian_update a.observations a.private_signal > 1/2)

/-- Embeds AgentV2._simulate_level1_agent. -/
def simulate_level1_agent (a : AgentV2) (observations : List Bool)
    (private_signal : Bool) : Bool :=
  decide (a.bayesian_update observations private_signal > 1/2)

/-- Recursion underlying AgentV2._infer_private_signals: `prev` is the
prefix `observations[:i]` already passed; each step classifies the current
observation against the two hypothetical level-1 decisions. -/
def inferAux (a : AgentV2) : List Bool → List Bool → ℕ × ℕ
  | _, [] => (0, 0)
  | prev, observation :: rest =>
    let decision_if_true := a.simulate_level1_agent prev true
    let decision_if_false := a.simulate_level1_agent prev false
    let tail := a.inferAux (prev ++ [observation]) rest
    if observation = decision_if_true then (tail.1 + 1, tail.2)
    else if observation = decision_if_false then (tail.1, tail.2 + 1)
    else (tail.1 + 1, tail.2)

/-- Embeds AgentV2._infer_private_signals: returns
`(true_count, false_count)`. -/
def infer_private_signals (a : AgentV2) : ℕ × ℕ :=
  a.inferAux [] a.observations

/-- Embeds AgentV2._bayesian_update_with_inferred_signals: `true_count`
True-updates, then `false_count` False-updates, then the private signal. -/
def bayesian_update_with_inferred_signals (a : AgentV2) (true_count : ℕ)
    (false_count : ℕ) (private_signal : Bool) : ℚ :=
  let p1 := (fun p => a.update_belief p true true)^[true_count] a.prior.1
  let p2 := (fun p => a.update_belief p false true)^[false_count] p1
  a.update_belief p2 private_signal false

/-- Embeds AgentV2.aux_lvl2: on empty observations fall through to
aux_lvl1; otherwise classify the observations and update with the
inferred signal counts. -/
def aux_lvl2 (a : AgentV2) : Bool :=
  if a.observations = [] then a.aux_lvl1
  else
    let counts := a.infer_private_signals
    decide (a.bayesian_update_with_inferred_signals counts.1 counts.2
      a.private_signal > 1/2)

/-- Embeds AgentV2.action: dispatch on `k_level`; for an unsupported level
no branch assigns `self.decision`, so the stale cached value is returned. -/
def action (a : AgentV2) : Option Bool :=
  if a.k_level = 0 then some a.aux_lvl0
  else if a.k_level = 1 then some a.aux_lvl1
  else if a.k_level = 2 then some a.aux_lvl2
  else a.decision

end AgentV2

namespace AgentClass

/-- Embeds the class Agent of AgentClass.py (the constructor performs no
validation; the random-signal branch is not modelled since every claim
supplies the private signal explicitly). -/
structure Agent where
  q : ℚ
  k_level : ℤ
  private_signal : Bool
  observations : List Bool

/-- Embeds Agent.calculate_belief_after_observations: fold from the
uniform prior 0.5, keeping the current belief when the denominator is not
positive. -/
def calculate_belief_after_observations (observations : List Bool)
    (q_other : ℚ) : ℚ :=
  observations.foldl
    (fun belief obs =>
      let likelihood_true := if obs then q_other else 1 - q_other
      let likelihood_false := if obs then 1 - q_other else q_other
      let numerator := likelihood_true * belief
      let denominator := numerator + likelihood_false * (1 - belief)
      if denominator > 0 then numerator / denominator else belief)
    (1/2)

/-- Embeds Agent.calculate_expected_action: one private-signal update and
the `final_belief > 0.5` decision rule. -/
def calculate_expected_action (belief_after_observations : ℚ)
    (private_signal : Bool) (q_agent : ℚ) : Bool :=
  let likelihood_true := if private_signal then q_agent else 1 - q_agent
  let likelihood_false := if private_signal then 1 - q_agent else q_agent
  let numerator := likelihood_true * belief_after_observations
  let denominator :=
    numerator + likelihood_false * (1 - belief_after_observations)
  let final_belief :=
    if denominator > 0 then numerator / denominator
    else belief_after_observations
  decide (final_belief > 1/2)

/-- Loop body of Agent.infer_private_signals_count (q_agent and q_other
are the hard-coded 0.6): `prev` is `observations[:i]`; the first agent is
classified directly from its action, later agents by comparing against the
expected action under each hypothetical private signal.  Note that an
action consistent with both hypotheses increments BOTH counters, and one
consistent with neither increments neither. -/
def inferAux : List Bool → List Bool → ℕ × ℕ
  | _, [] => (0, 0)
  | prev, current_action :: rest =>
    let contrib : ℕ × ℕ :=
      if prev = [] then
        let inferred_signal :=
          if (6/10 : ℚ) ≥ 1/2 then current_action else !current_action
        if inferred_signal then (1, 0) else (0, 1)
      else
        let belief_after_prev :=
          calculate_belief_after_observations prev (6/10)
        let action_if_true :=
          calculate_expected_action belief_after_prev true (6/10)
        let action_if_false :=
          calculate_expected_action belief_after_prev false (6/10)
        ((if current_action = action_if_true then 1 else 0),
         (if current_action = action_if_false then 1 else 0))
    let tail := inferAux (prev ++ [current_action]) rest
    (contrib.1 + tail.1, contrib.2 + tail.2)

/-- Embeds Agent.infer_private_signals_count (without the details list):
returns `(overall_signal, true_count, false_count)` where the overall
signal is `None` on a tie. -/
def Agent.infer_private_signals_count (a : Agent) : Option Bool × ℕ × ℕ :=
  let counts := inferAux [] a.observations
  let overall_signal : Option Bool :=
    if counts.1 > counts.2 then some true
    else if counts.2 > counts.1 then some false
    else none
  (overall_signal, counts.1, counts.2)

/-- Embeds Agent._bayesian_update (no zero-denominator guards in the
source; Lean division-by-zero yields 0, but on every input reachable from
`Agent.action` the denominators are nonzero). -/
def Agent.bayesian_update (a : Agent) : ℚ :=
  if a.observations = [] then
    if a.private_signal then (a.q * (1/2)) / (1/2)
    else ((1 - a.q) * (1/2)) / (1/2)
  else
    let prob_true :=
      a.observations.foldl
        (fun prob_true obs =>
          let prob_obs_given_true := if obs then (6/10 : ℚ) else 1 - 6/10
          let prob_obs_given_false := if obs then 1 - (6/10 : ℚ) else 6/10
          let prob_obs :=
            prob_obs_given_true * prob_true
              + prob_obs_given_false * (1 - prob_true)
          (prob_obs_given_true * prob_true) / prob_obs)
        (1/2)
    let prob_signal_given_true := if a.private_signal then a.q else 1 - a.q
    let prob_signal_given_false := if a.private_signal then 1 - a.q else a.q
    let prob_signal :=
      prob_signal_given_true * prob_true
        + prob_signal_given_false * (1 - prob_true)
    (prob_signal_given_true * prob_true) / prob_signal

/-- Embeds Agent.action: dispatch on `k_level`; at k=2 with non-empty
observations the method returns `overall_signal`, which is Python `None`
(here `Option.none`) when the inferred counts tie; an unsupported k_level
raises ValueError (the `.error` case). -/
def Agent.action (a : Agent) : Except String (Option Bool) :=
  if a.k_level = 0 then
    Except.ok (some (if a.q ≥ 1/2 then a.private_signal else !a.private_signal))
  else if a.k_level = 1 then
    if a.observations = [] then
      Except.ok (some (if a.q ≥ 1/2 then a.private_signal else !a.private_signal))
    else
      Except.ok (some (decide (a.bayesian_update > 1/2)))
  else if a.k_level = 2 then
    if a.observations = [] then
      Except.ok (some (if a.q ≥ 1/2 then a.private_signal else !a.private_signal))
    else
      Except.ok a.infer_private_signals_count.1
  else
    Except.error "Unsupported K-level"

end AgentClass

section Congruence

/-- AgentV2._update_belief reads only `signal_strength` from the agent. -/
lemma update_belief_congr (a b : AgentV2)
    (hq : a.signal_strength = b.signal_strength) :
    a.update_belief = b.update_belief := by
  funext p s io
  simp only [AgentV2.update_belief, hq]

/-- AgentV2._bayesian_update reads only `signal_strength` and `prior[0]`
from the agent. -/
lemma bayesian_update_congr (a b : AgentV2)
    (hq : a.signal_strength = b.signal_strength)
    (hp : a.prior.1 = b.prior.1) :
    a.bayesian_update = b.bayesian_update := by
  funext obs ps
  simp only [AgentV2.bayesian_update, update_belief_congr a b hq, hp]

/-- AgentV2._simulate_level1_agent reads only `signal_strength` and
`prior[0]` from the agent. -/
lemma simulate_congr (a b : AgentV2)
    (hq : a.signal_strength = b.signal_strength)
    (hp : a.prior.1 = b.prior.1) :
    a.simulate_level1_agent = b.simulate_level1_agent := by
  funext obs ps
  simp only [AgentV2.simulate_level1_agent, bayesian_update_congr a b hq hp]

/-- The signal-inference loop reads only `signal_strength` and `prior[0]`
from the agent. -/
lemma inferAux_congr (a b : AgentV2)
    (hq : a.signal_strength = b.signal_strength)
    (hp : a.prior.1 = b.prior.1) :
    ∀ (l prev : List Bool), a.inferAux prev l = b.inferAux prev l := by
  intro l
  induction l with
  | nil => intro prev; rfl
  | cons x xs ih =>
    intro prev
    simp only [AgentV2.inferAux, simulate_congr a b hq hp, ih]

/-- AgentV2._bayesian_update_with_inferred_signals reads only
`signal_strength` and `prior[0]` from the agent. -/
lemma buis_congr (a b : AgentV2)
    (hq : a.signal_strength = b.signal_strength)
    (hp : a.prior.1 = b.prior.1) :
    a.bayesian_update_with_inferred_signals
      = b.bayesian_update_with_inferred_signals := by
  funext tc fc ps
  simp only [AgentV2.bayesian_update_with_inferred_signals,
    update_belief_congr a b hq, hp]

/-- AgentV2.aux_lvl0 reads only `signal_strength` and `private_signal`. -/
lemma aux_lvl0_congr (a b : AgentV2)
    (h1 : a.private_signal = b.private_signal)
    (hq : a.signal_strength = b.signal_strength) :
    a.aux_lvl0 = b.aux_lvl0 := by
  simp only [AgentV2.aux_lvl0, h1, hq]

/-- AgentV2.aux_lvl1 reads only `private_signal`, `signal_strength`,
`observations` and `prior[0]`. -/
lemma aux_lvl1_congr (a b : AgentV2)
    (h1 : a.private_signal = b.private_signal)
    (hq : a.signal_strength = b.signal_strength)
    (ho : a.observations = b.observations)
    (hp : a.prior.1 = b.prior.1) :
    a.aux_lvl1 = b.aux_lvl1 := by
  simp only [AgentV2.aux_lvl1, bayesian_update_congr a b hq hp, ho, h1]

/-- AgentV2.aux_lvl2 reads only `private_signal`, `signal_strength`,
`observations` and `prior[0]`. -/
lemma aux_lvl2_congr (a b : AgentV2)
    (h1 : a.private_signal = b.private_signal)
    (hq : a.signal_strength = b.signal_strength)
    (ho : a.observations = b.observations)
    (hp : a.prior.1 = b.prior.1) :
    a.aux_lvl2 = b.aux_lvl2 := by
  simp only [AgentV2.aux_lvl2, AgentV2.infer_private_signals,
    aux_lvl1_congr a b h1 hq ho hp, inferAux_congr a b hq hp,
    buis_congr a b hq hp, ho, h1]

/-- AgentV2.action depends only on the five agent fields, plus the cached
`decision` in the unsupported-k_level branch. -/
lemma action_congr (a b : AgentV2)
    (h1 : a.private_signal = b.private_signal)
    (hq : a.signal_strength = b.signal_strength)
    (hk : a.k_level = b.k_level)
    (ho : a.observations = b.observations)
    (hp : a.prior.1 = b.prior.1)
    (hd : a.decision = b.decision
      ∨ (a.k_level = 0 ∨ a.k_level = 1 ∨ a.k_level = 2)) :
    a.action = b.action := by
  simp only [AgentV2.action, hk, aux_lvl0_congr a b h1 hq,
    aux_lvl1_congr a b h1 hq ho hp, aux_lvl2_congr a b h1 hq ho hp]
  rcases hd with hd | hk012
  · rw [hd]
  · rcases hk012 with h | h | h <;> rw [hk] at h <;> simp [h]

end Congruence

/-- C6: a k=0 agent ignores the observation sequence (and the prior and
cached decision) entirely and returns `private_signal` when
`signal_strength ≥ 0.5`, otherwise its negation — proved here for every
rational q, which covers every q in [0,1]. -/
theorem c6_k0_ignores_observations (ps : Bool) (q : ℚ) (pr : ℚ × ℚ)
    (obs : List Bool) (d : Option Bool) :
    AgentV2.action ⟨ps, q, 0, pr, obs, d⟩
      = some (if q ≥ 1/2 then ps else !ps) := by
  simp [AgentV2.action, AgentV2.aux_lvl0]

/-- C8: `observe` replaces the observation sequence wholesale (the stored
sequence after `observe x` is exactly `x`, not an extension of the old
one), hence calling `observe x` twice and then deciding gives the same
decision as calling it once. -/
theorem c8_observe_idempotent (a : AgentV2) (x : List Bool) :
    (a.observe x).observations = x
      ∧ AgentV2.action ((a.observe x).observe x)
          = AgentV2.action (a.observe x) :=
  ⟨rfl, rfl⟩

/-- C9: `action` is deterministic — two agents that agree on
`(private_signal, signal_strength, k_level, observations, prior)` and have
a supported k_level return the same decision, whatever their cached
`decision` fields hold; there is no other input to the computation. -/
theorem c9_action_deterministic (a b : AgentV2)
    (h1 : a.private_signal = b.private_signal)
    (hq : a.signal_strength = b.signal_strength)
    (hk : a.k_level = b.k_level)
    (ho : a.observations = b.observations)
    (hp : a.prior = b.prior)
    (hvalid : a.k_level = 0 ∨ a.k_level = 1 ∨ a.k_level = 2) :
    a.action = b.action :=
  action_congr a b h1 hq hk ho (congrArg Prod.fst hp) (Or.inr hvalid)

/-- C9 witness: two concrete agents identical except for the cached
decision field return the same decision. -/
theorem c9_witness :
    AgentV2.action ⟨true, 3/5, 0, (1/2, 1/2), [], none⟩
      = AgentV2.action ⟨true, 3/5, 0, (1/2, 1/2), [], some false⟩ :=
  c9_action_deterministic _ _ rfl rfl rfl rfl rfl (Or.inl rfl)

/-- C10: the second prior component is never read — construction succeeds
or fails independently of it (the constructor does not validate the prior
at all), and `action` returns the same decision when only `prior[1]` is
changed. -/
theorem c10_prior_snd_unread :
    (∀ (ps : Bool) (q : ℚ) (k : ℤ) (p1 p2 p2' : ℚ),
        AgentV2.initOk ps q k (p1, p2) = AgentV2.initOk ps q k (p1, p2'))
    ∧ ∀ (a : AgentV2) (p2' : ℚ),
        AgentV2.action { a with prior := (a.prior.1, p2') } = a.action := by
  constructor
  · intro ps q k p1 p2 p2'
    simp only [AgentV2.initOk, AgentV2.init]
    split_ifs <;> rfl
  · intro a p2'
    exact action_congr _ a rfl rfl rfl rfl rfl (Or.inl rfl)

/-- Characterises when construction succeeds: exactly on
`signal_strength ∈ [0,1]` and `k_level ∈ \x7b0,1,2\x7d`. -/
lemma initOk_iff (ps : Bool) (q : ℚ) (k : ℤ) (pr : ℚ × ℚ) :
    AgentV2.initOk ps q k pr = true
      ↔ ((0 ≤ q ∧ q ≤ 1) ∧ (k = 0 ∨ k = 1 ∨ k = 2)) := by
  simp only [AgentV2.initOk, AgentV2.init]
  by_cases hq : 0 ≤ q ∧ q ≤ 1 <;>
    by_cases hk : k = 0 ∨ k = 1 ∨ k = 2 <;>
      simp [hq, hk]

/-- A successful `init` pins down the agent's fields, and in particular a
supported k_level. -/
lemma init_ok_fields (ps : Bool) (q : ℚ) (k : ℤ) (pr : ℚ × ℚ)
    (a : AgentV2) (h : AgentV2.init ps q k pr = Except.ok a) :
    a = ⟨ps, q, k, pr, [], none⟩
      ∧ (0 ≤ q ∧ q ≤ 1) ∧ (k = 0 ∨ k = 1 ∨ k = 2) := by
  simp only [AgentV2.init] at h
  split_ifs at h with h1 h2
  · push_neg at h1
    injection h with h
    exact ⟨h.symm, by tauto, by tauto⟩

/-- Every successfully constructed agent produces an actual decision from
`action`, for every observation sequence given to `observe`. -/
lemma init_ok_action_isSome (ps : Bool) (q : ℚ) (k : ℤ) (pr : ℚ × ℚ)
    (a : AgentV2) (h : AgentV2.init ps q k pr = Except.ok a)
    (obs : List Bool) : (AgentV2.action (a.observe obs)).isSome = true := by
  obtain ⟨ha, -, hk⟩ := init_ok_fields ps q k pr a h
  subst ha
  rcases hk with h | h | h <;>
    simp [AgentV2.observe, AgentV2.action, h]

/-- C1: construction fails (raises) exactly when `signal_strength` is
outside [0,1] or `k_level` is not 0, 1 or 2; and every agent that `init`
does return produces an actual boolean decision from `action` on every
observation sequence — the unsupported-k_level branch of `action` (which
would return the stale `None`) is unreachable for constructed agents. -/
theorem c1_invalid_configuration (ps : Bool) (q : ℚ) (k : ℤ)
    (pr : ℚ × ℚ) :
    (AgentV2.initOk ps q k pr = false
      ↔ (q < 0 ∨ 1 < q ∨ ¬(k = 0 ∨ k = 1 ∨ k = 2)))
    ∧ ∀ (a : AgentV2) (obs : List Bool),
        AgentV2.init ps q k pr = Except.ok a →
        (AgentV2.action (a.observe obs)).isSome = true := by
  constructor
  · rw [Bool.eq_false_iff, Ne, initOk_iff]
    constructor
    · intro h
      rcases not_and_or.mp h with h | h
      · rcases not_and_or.mp h with h | h
        · exact Or.inl (not_le.mp h)
        · exact Or.inr (Or.inl (not_le.mp h))
      · exact Or.inr (Or.inr h)
    · intro h hc
      rcases h with h | h | h
      · exact absurd hc.1.1 (not_le.mpr h)
      · exact absurd hc.1.2 (not_le.mpr h)
      · exact h hc.2
  · intro a obs h
    exact init_ok_action_isSome ps q k pr a h obs

/-- C1 witness: a valid configuration is constructed and produces a
decision on a concrete observation sequence, and the failure
characterisation is instantiated there. -/
theorem c1_witness :
    (AgentV2.initOk true (3/5) 1 (1/2, 1/2) = false
      ↔ ((3/5 : ℚ) < 0 ∨ 1 < (3/5 : ℚ)
          ∨ ¬((1 : ℤ) = 0 ∨ (1 : ℤ) = 1 ∨ (1 : ℤ) = 2)))
    ∧ (AgentV2.action
        (AgentV2.observe ⟨true, 3/5, 1, (1/2, 1/2), [], none⟩ [true])).isSome
        = true :=
  ⟨(c1_invalid_configuration true (3/5) 1 (1/2, 1/2)).1,
   (c1_invalid_configuration true (3/5) 1 (1/2, 1/2)).2
     ⟨true, 3/5, 1, (1/2, 1/2), [], none⟩ [true]
     (by norm_num [AgentV2.init])⟩

/-- C2: `decide` is total for constructed agents — the belief-update step
returns the pre-update belief unchanged whenever its evidence-marginal
denominator is zero (instead of dividing by it), and `action` produces an
actual decision for every constructed agent and every observation
sequence. -/
theorem c2_decide_total :
    (∀ (a : AgentV2) (p : ℚ) (s io : Bool),
        a.update_den p s io = 0 → a.update_belief p s io = p)
    ∧ ∀ (ps : Bool) (q : ℚ) (k : ℤ) (pr : ℚ × ℚ) (a : AgentV2)
        (obs : List Bool),
        AgentV2.init ps q k pr = Except.ok a →
        (AgentV2.action (a.observe obs)).isSome = true := by
  constructor
  · intro a p s io h
    simp only [AgentV2.update_den] at h
    simp only [AgentV2.update_belief]
    rw [if_pos h]
  · intro ps q k pr a obs h
    exact init_ok_action_isSome ps q k pr a h obs

/-- C2 witness: at signal_strength 1, a False private signal against a
current belief of 1 has a zero evidence denominator, and the update
returns the belief 1 unchanged; a constructed k=2 agent with
signal_strength 0 produces a decision on a mixed observation sequence. -/
theorem c2_witness :
    AgentV2.update_belief ⟨true, 1, 0, (1/2, 1/2), [], none⟩ 1 false false
      = 1
    ∧ (AgentV2.action
        (AgentV2.observe ⟨false, 0, 2, (1/2, 1/2), [], none⟩
          [true, false])).isSome = true :=
  ⟨c2_decide_total.1 ⟨true, 1, 0, (1/2, 1/2), [], none⟩ 1 false false
      (by norm_num [AgentV2.update_den]),
   c2_decide_total.2 false 0 2 (1/2, 1/2)
      ⟨false, 0, 2, (1/2, 1/2), [], none⟩ [true, false]
      (by norm_num [AgentV2.init])⟩

/-- C3: in the k=2 classification loop of AgentV2, an observation that is
consistent with both hypothetical k=1 predecessors (signal True and signal
False give the same decision, equal to the observation) is counted toward
`true_count`, and one that is consistent with neither is not dropped but
counted toward `true_count` as well; `false_count` is unchanged in both
cases. -/
theorem c3_tie_counts_true (a : AgentV2) (prev rest : List Bool)
    (obs : Bool) :
    (obs = a.simulate_level1_agent prev true →
      obs = a.simulate_level1_agent prev false →
      a.inferAux prev (obs :: rest)
        = ((a.inferAux (prev ++ [obs]) rest).1 + 1,
           (a.inferAux (prev ++ [obs]) rest).2))
    ∧ (obs ≠ a.simulate_level1_agent prev true →
      obs ≠ a.simulate_level1_agent prev false →
      a.inferAux prev (obs :: rest)
        = ((a.inferAux (prev ++ [obs]) rest).1 + 1,
           (a.inferAux (prev ++ [obs]) rest).2)) := by
  constructor
  · intro hT _
    simp only [AgentV2.inferAux]
    rw [if_pos hT]
  · intro hT hF
    simp only [AgentV2.inferAux]
    rw [if_neg hT, if_neg hF]

/-- C3 witness: with signal_strength 0.5 the simulated k=1 predecessor
decides False under either private signal (posterior exactly 0.5), so a
False observation is consistent with both; the classification counts it
toward `true_count`. -/
theorem c3_witness :
    AgentV2.inferAux ⟨true, 1/2, 2, (1/2, 1/2), [false], none⟩ [] [false]
      = ((AgentV2.inferAux ⟨true, 1/2, 2, (1/2, 1/2), [false], none⟩
            [false] []).1 + 1,
         (AgentV2.inferAux ⟨true, 1/2, 2, (1/2, 1/2), [false], none⟩
            [false] []).2) :=
  (c3_tie_counts_true ⟨true, 1/2, 2, (1/2, 1/2), [false], none⟩ [] []
      false).1
    (by norm_num [AgentV2.simulate_level1_agent, AgentV2.bayesian_update,
      AgentV2.update_belief])
    (by norm_num [AgentV2.simulate_level1_agent, AgentV2.bayesian_update,
      AgentV2.update_belief])

/-- C5 evidence: the k=2 branch of AgentClass's Agent.action returns
Python `None` — not a boolean — when the inferred signal counts tie, as on
the observation sequence [True, False] with q = 0.6. -/
theorem c5_agentclass_returns_none_on_tie :
    AgentClass.Agent.action ⟨3/5, 2, true, [true, false]⟩
      = Except.ok none := by
  simp [AgentClass.Agent.action, AgentClass.Agent.infer_private_signals_count,
    AgentClass.inferAux, AgentClass.calculate_belief_after_observations,
    AgentClass.calculate_expected_action]
  norm_num

/-- C4 counterexample: with private_signal = True, q = 0.5 and empty
observations (default prior), the k=0 agent decides True but the k=1 and
k=2 agents decide False — the three k-levels do not all return the k=0
rule's output, refuting the claim as stated. -/
theorem c4_counterexample :
    AgentV2.action ⟨true, 1/2, 0, (1/2, 1/2), [], none⟩ = some true
    ∧ AgentV2.action ⟨true, 1/2, 1, (1/2, 1/2), [], none⟩ = some false
    ∧ AgentV2.action ⟨true, 1/2, 2, (1/2, 1/2), [], none⟩ = some false := by
  refine ⟨?_, ?_, ?_⟩ <;>
    simp [AgentV2.action, AgentV2.aux_lvl0, AgentV2.aux_lvl1,
      AgentV2.aux_lvl2, AgentV2.bayesian_update, AgentV2.update_belief] <;>
    norm_num

/-- On empty observations, aux_lvl1 reduces to one private-signal update
of the default uniform prior; this lemma computes that decision. -/
lemma aux_lvl1_empty (ps : Bool) (q : ℚ) (k : ℤ) (hq : ps = true → q ≠ 1/2) :
    AgentV2.aux_lvl1 ⟨ps, q, k, (1/2, 1/2), [], none⟩
      = (if q ≥ 1/2 then ps else !ps) := by
  cases ps
  · simp only [Bool.not_false]
    simp only [AgentV2.aux_lvl1, AgentV2.bayesian_update,
      AgentV2.update_belief, List.foldl_nil]
    norm_num
    rw [show (1 - q) * (1/2) + q * (1/2 : ℚ) = 1/2 from by ring]
    rw [show (1 - q) * (1/2) / (1/2 : ℚ) = 1 - q from by field_simp]
    norm_num
    rcases le_or_lt (1/2 : ℚ) q with h | h
    · rw [decide_eq_true h, Bool.not_true]
      exact decide_eq_false (by linarith)
    · rw [decide_eq_false (not_le.mpr h), Bool.not_false]
      exact decide_eq_true (by linarith)
  · simp only [Bool.not_true]
    simp only [AgentV2.aux_lvl1, AgentV2.bayesian_update,
      AgentV2.update_belief, List.foldl_nil]
    norm_num
    rw [show q * (1/2) + (1 - q) * (1/2 : ℚ) = 1/2 from by ring]
    rw [show q * (1/2) / (1/2 : ℚ) = q from by field_simp]
    norm_num
    constructor
    · exact fun h => le_of_lt h
    · exact fun h => lt_of_le_of_ne h (Ne.symm (hq rfl))

/-- C4 amended: with the default uniform prior and empty observations,
the k=0, k=1 and k=2 agents all return the k=0 rule's output
(private_signal when q ≥ 0.5, else its negation) for every q in [0,1]
EXCEPT the single boundary point private_signal = True, q = 0.5, where
k=1 and k=2 return the negation (the code's k=1 path does not fall back
to the k=0 rule on empty observations; its posterior equals q exactly and
the strict comparison q > 0.5 disagrees with the k=0 rule's q ≥ 0.5 only
there). -/
theorem c4_amended_empty_obs_agreement (ps : Bool) (q : ℚ)
    (h0 : 0 ≤ q) (h1 : q ≤ 1) (hne : ¬(ps = true ∧ q = 1/2)) :
    AgentV2.action ⟨ps, q, 0, (1/2, 1/2), [], none⟩
        = some (if q ≥ 1/2 then ps else !ps)
    ∧ AgentV2.action ⟨ps, q, 1, (1/2, 1/2), [], none⟩
        = some (if q ≥ 1/2 then ps else !ps)
    ∧ AgentV2.action ⟨ps, q, 2, (1/2, 1/2), [], none⟩
        = some (if q ≥ 1/2 then ps else !ps) := by
  have hq : ps = true → q ≠ 1/2 := fun hps h => hne ⟨hps, h⟩
  have h2 : AgentV2.aux_lvl2 ⟨ps, q, 2, (1/2, 1/2), [], none⟩
      = AgentV2.aux_lvl1 ⟨ps, q, 2, (1/2, 1/2), [], none⟩ := by
    simp [AgentV2.aux_lvl2]
  refine ⟨?_, ?_, ?_⟩
  · simp [AgentV2.action, AgentV2.aux_lvl0]
  · have ha : AgentV2.action ⟨ps, q, 1, (1/2, 1/2), [], none⟩
        = some (AgentV2.aux_lvl1 ⟨ps, q, 1, (1/2, 1/2), [], none⟩) := by
      simp [AgentV2.action]
    rw [ha, aux_lvl1_empty ps q 1 hq]
  · have ha : AgentV2.action ⟨ps, q, 2, (1/2, 1/2), [], none⟩
        = some (AgentV2.aux_lvl2 ⟨ps, q, 2, (1/2, 1/2), [], none⟩) := by
      simp [AgentV2.action]
    rw [ha, h2, aux_lvl1_empty ps q 2 hq]

/-- C4 witness: the amended agreement instantiated at
private_signal = True, q = 0.6. -/
theorem c4_witness :
    AgentV2.action ⟨true, 3/5, 0, (1/2, 1/2), [], none⟩
        = some (if (3/5 : ℚ) ≥ 1/2 then true else !true)
    ∧ AgentV2.action ⟨true, 3/5, 1, (1/2, 1/2), [], none⟩
        = some (if (3/5 : ℚ) ≥ 1/2 then true else !true)
    ∧ AgentV2.action ⟨true, 3/5, 2, (1/2, 1/2), [], none⟩
        = some (if (3/5 : ℚ) ≥ 1/2 then true else !true) :=
  c4_amended_empty_obs_agreement true (3/5) (by norm_num) (by norm_num)
    (by norm_num)

/-- Arithmetic core of the monotonicity argument: a Bayes step with
likelihood 3/5 for a True signal pushes any belief ≥ 1/2 strictly above
1/2 (the denominator is positive, so the guard branch is not taken). -/
lemma half_lt_upd (x : ℚ) (hx : 1/2 ≤ x) :
    1/2 < if 3 / 5 * x + 2 / 5 * (1 - x) = 0 then x
          else 3 / 5 * x / (3 / 5 * x + 2 / 5 * (1 - x)) := by
  have hden : 0 < 3 / 5 * x + 2 / 5 * (1 - x) := by linarith
  rw [if_neg hden.ne']
  rw [lt_div_iff₀ hden]
  linarith

/-- A True observation (assumed accuracy 0.6) keeps the belief strictly
above 1/2 whenever it was at least 1/2. -/
lemma step_obs_true (a : AgentV2) (p : ℚ) (hp : 1/2 ≤ p) :
    1/2 < a.update_belief p true true := by
  simp only [AgentV2.update_belief]
  norm_num
  exact half_lt_upd p hp

/-- The private-signal update at signal_strength 0.6 likewise pushes a
belief ≥ 1/2 strictly above 1/2. -/
lemma step_priv_true (a : AgentV2) (hq : a.signal_strength = 3/5)
    (p : ℚ) (hp : 1/2 ≤ p) :
    1/2 < a.update_belief p true false := by
  simp only [AgentV2.update_belief, hq]
  norm_num
  exact half_lt_upd p hp

/-- Folding True observations keeps the belief at least 1/2. -/
lemma fold_true_ge_half (a : AgentV2) :
    ∀ (l : List Bool), (∀ b ∈ l, b = true) → ∀ (p : ℚ), 1/2 ≤ p →
      1/2 ≤ l.foldl (fun p o => a.update_belief p o true) p := by
  intro l
  induction l with
  | nil => intro _ p hp; simpa using hp
  | cons x xs ih =>
    intro hmem p hp
    have hx : x = true := hmem x (List.mem_cons_self x xs)
    subst hx
    simp only [List.foldl_cons]
    exact ih (fun b hb => hmem b (List.mem_cons_of_mem _ hb)) _
      (le_of_lt (step_obs_true a p hp))

/-- The k=1 agent of the monotonicity property: private_signal True,
signal_strength 0.6, default prior, holding the given observations. -/
def agentK1 (obs : List Bool) : AgentV2 :=
  ⟨true, 3/5, 1, (1/2, 1/2), obs, none⟩

/-- C7: for the k=1 agent with private_signal = True and q = 0.6, every
non-empty all-True observation sequence yields decision True, and some
all-False observation sequence (length 1 suffices) flips the decision to
False. -/
theorem c7_k1_monotonicity :
    (∀ obs : List Bool, obs ≠ [] → (∀ b ∈ obs, b = true) →
        AgentV2.action (agentK1 obs) = some true)
    ∧ ∃ n : ℕ,
        AgentV2.action (agentK1 (List.replicate n false)) = some false := by
  constructor
  · intro obs hne hall
    have hfold : 1/2 ≤ obs.foldl
        (fun p o => (agentK1 obs).update_belief p o true)
        (agentK1 obs).prior.1 :=
      fold_true_ge_half (agentK1 obs) obs hall (1/2) le_rfl
    have hpost : 1/2 < (agentK1 obs).bayesian_update obs true :=
      step_priv_true (agentK1 obs) rfl _ hfold
    simp [agentK1, AgentV2.action, AgentV2.aux_lvl1]
    simpa [agentK1] using hpost
  · refine ⟨1, ?_⟩
    simp [agentK1, AgentV2.action, AgentV2.aux_lvl1,
      AgentV2.bayesian_update, AgentV2.update_belief]
    norm_num

/-- C7 witness: the all-True part instantiated at the singleton
observation sequence [True]. -/
theorem c7_witness :
    AgentV2.action (agentK1 [true]) = some true :=
  c7_k1_monotonicity.1 [true] (by simp) (by simp)
